import Mathlib

/-!
Verification of the idealista web-scraper's extraction-and-normalization
pipeline (files `src/data/normalizator.py` and `src/data/io.py`).

The Python code is shallowly embedded: each method becomes an executable
Lean function over typed rows.  Regular-expression searches are embedded
by small scanners implementing the exact leftmost-search semantics of the
patterns used in the source (all of which are of restricted shapes —
literal phrases, digit runs followed by a literal, a literal followed by
a digit run, decimal numbers — so no general regex engine is needed).
Notes on fidelity:
* Python's `str.lower` and `\w` / `\d` / `\s` classes are Unicode-aware;
  the embedding uses the ASCII versions (`Char.toLower`, `Char.isDigit`,
  `Char.isWhitespace`, alphanumeric-or-underscore).  All phrases matched
  by the source patterns are fixed literals, so the two agree on every
  input whose cased letters are ASCII.
* pandas float64 cells are modelled by `Option ℚ` (`none` = NaN); every
  numeric value appearing in the claims (150000.0, 1250.50, 1.25, …) is
  exactly representable in binary floating point and all arithmetic
  performed on it by the source (multiplication by 1000, parsing such
  decimal strings) is exact, so ℚ is faithful on the inputs at stake.
* pandas int64 cells are modelled by `Int`, with the int64 cast of the
  price column checked explicitly against the int64 upper bound (the
  captured digit runs are nonnegative, so only that bound can fail).
-/

/-- Test whether `pat` occurs as a contiguous substring of `l`
(Python's `in` operator on strings, and `re.search` of a literal pattern). -/
def listContains (pat : List Char) : List Char → Bool
  | [] => pat.isPrefixOf ([] : List Char)
  | l@(_ :: cs) => pat.isPrefixOf l || listContains pat cs

/-- String-level substring test, `pat in s` in Python. -/
def containsSubstr (pat s : String) : Bool :=
  listContains pat.data s.data

/-- Leftmost-match regex search: try the matcher `tryAt` at every start
position from the left, returning the first success. -/
def scanSearch {α : Type} (tryAt : List Char → Option α) : List Char → Option α
  | [] => none
  | c :: cs =>
    match tryAt (c :: cs) with
    | some v => some v
    | none => scanSearch tryAt cs

/-- Numeric value of a run of decimal digits (the `int(...)` applied by the
source to a captured digit group). -/
def digitsToNat (l : List Char) : Nat :=
  l.foldl (fun n c => 10 * n + (c.toNat - '0'.toNat)) 0

/-- Matcher for a pattern of shape `(\d+)\s*LIT` anchored at the current
position: a digit run, optional whitespace, then the literal `lit`.
Faithful because every literal used in the source starts with a letter,
so the greedy digit/whitespace runs never need backtracking. -/
def tryNumLit (lit : List Char) (l : List Char) : Option Nat :=
  match l with
  | [] => none
  | c :: cs =>
    if c.isDigit then
      let ds := c :: cs.takeWhile Char.isDigit
      let rest := (cs.dropWhile Char.isDigit).dropWhile Char.isWhitespace
      if lit.isPrefixOf rest then some (digitsToNat ds) else none
    else none

/-- Matcher for a pattern of shape `LIT(\d+)` anchored at the current
position: the literal `lit` followed by a digit run. -/
def tryLitNum (lit : List Char) (l : List Char) : Option Nat :=
  if lit.isPrefixOf l then
    match l.drop lit.length with
    | c :: cs => if c.isDigit then some (digitsToNat (c :: cs.takeWhile Char.isDigit)) else none
    | [] => none
  else none

/-- Matcher for a pattern of shape `LIT1(\d+)\s*LIT2` anchored at the
current position (used by `parcela de (\d+)\s*m²`). -/
def tryLitNumLit (lit1 lit2 : List Char) (l : List Char) : Option Nat :=
  if lit1.isPrefixOf l then
    match l.drop lit1.length with
    | c :: cs =>
      if c.isDigit then
        let ds := c :: cs.takeWhile Char.isDigit
        let rest := (cs.dropWhile Char.isDigit).dropWhile Char.isWhitespace
        if lit2.isPrefixOf rest then some (digitsToNat ds) else none
      else none
    | [] => none
  else none

/-- Matcher for `LIT(\d{4})` anchored at the current position (used by
`construido en (\d{4})`): the literal followed by at least four digits,
the first four being captured. -/
def tryLitYear (lit : List Char) (l : List Char) : Option Nat :=
  if lit.isPrefixOf l then
    let ds := (l.drop lit.length).takeWhile Char.isDigit
    if 4 ≤ ds.length then some (digitsToNat (ds.take 4)) else none
  else none

/-- Word character for the source's `\w` class (ASCII approximation). -/
def isWordChar (c : Char) : Bool :=
  c.isAlphanum || c = '_'

/-- Continuation groups `(?:, \w+)*` of the `orientación` pattern:
greedily consume repetitions of a comma, a space and a nonempty word run.
The first argument is fuel (any bound on the input length). -/
def orientMore : Nat → List Char → List Char
  | 0, _ => []
  | n + 1, ',' :: ' ' :: rest =>
    let w := rest.takeWhile isWordChar
    if w.isEmpty then [] else ',' :: ' ' :: (w ++ orientMore n (rest.drop w.length))
  | _ + 1, _ => []

/-- Matcher for `orientación (\w+(?:, \w+)*)` anchored at the current
position. -/
def tryOrientacion (l : List Char) : Option String :=
  let lit := "orientación ".data
  if lit.isPrefixOf l then
    let rest := l.drop lit.length
    let w := rest.takeWhile isWordChar
    if w.isEmpty then none
    else some (String.mk (w ++ orientMore rest.length (rest.drop w.length)))
  else none

/-- Character class `[\w\s:]` of the `calefacción` pattern. -/
def calClass (c : Char) : Bool :=
  isWordChar c || c.isWhitespace || c = ':'

/-- Python's `str.strip`: remove leading and trailing whitespace. -/
def stripChars (l : List Char) : List Char :=
  ((l.dropWhile Char.isWhitespace).reverse.dropWhile Char.isWhitespace).reverse

/-- Matcher for `calefacción\s*([\w\s:]+)` anchored at the current
position, composed with the `.strip()` the source applies to the captured
group.  When the maximal whitespace run is followed by a class character
the greedy match captures the class run there; otherwise the engine
backtracks one whitespace character into the group, so the stripped
capture is empty (but the search still succeeds). -/
def tryCalefaccion (l : List Char) : Option String :=
  let lit := "calefacción".data
  if lit.isPrefixOf l then
    let rest := l.drop lit.length
    let sp := rest.takeWhile Char.isWhitespace
    let r2 := rest.dropWhile Char.isWhitespace
    match r2 with
    | c :: _ =>
      if calClass c then some (String.mk (stripChars (r2.takeWhile calClass)))
      else if sp.isEmpty then none else some ""
    | [] => if sp.isEmpty then none else some ""
  else none

/-- Python's `str.lower`, character by character (ASCII approximation,
see the header note). -/
def asciiLower (s : String) : String :=
  String.mk (s.data.map Char.toLower)

/-- Concatenated lowercased text the info-feature extractor searches:
`" ".join(info).lower()` (normalizator.py lines 56-59). -/
def infoText (info : List String) : String :=
  asciiLower (String.intercalate " " info)

/-- Output record of `extract_info_features` (normalizator.py 87-93). -/
structure InfoFeatures where
  superficie_m2 : Option Nat
  habitaciones : Option Nat
  garaje : Bool
  planta : Option Nat
  ascensor : Option Bool
  deriving DecidableEq, Repr

/-- Embedding of `NormalizarDataFrame.extract_info_features`
(normalizator.py lines 41-93): six independent regex searches over the
joined lowercased fragment text. -/
def extract_info_features (info : List String) : InfoFeatures :=
  let text := infoText info
  { superficie_m2 := scanSearch (tryNumLit "m²".data) text.data
    habitaciones := scanSearch (tryNumLit "hab".data) text.data
    garaje := containsSubstr "garaje incluido" text || containsSubstr "con garaje" text
    planta := scanSearch (tryLitNum "planta ".data) text.data
    ascensor :=
      if containsSubstr "con ascensor" text then some true
      else if containsSubstr "sin ascensor" text then some false
      else none }

/-- Value stored under a label of an energy-certificate entry.  The
source checks `isinstance(v, np.ndarray)` before indexing, so the model
distinguishes a two-element array (`arr`), Python `None` (`null`) and any
other runtime value (`other`, e.g. a plain Python list), which the
`isinstance` test rejects. -/
inductive EnergyVal where
  | null
  | arr (val icon : String)
  | other
  deriving DecidableEq, Repr

/-- Embedding of `filter_energy_data` (normalizator.py lines 95-117):
keep, inside every entry, only the pairs whose key is `"Consumo:"` or
`"Emisiones:"` and whose value is not `None`. -/
def filter_energy_data (data : List (List (String × EnergyVal))) :
    List (List (String × EnergyVal)) :=
  data.map fun item =>
    item.filter fun kv =>
      (kv.1 = "Consumo:" || kv.1 = "Emisiones:") && kv.2 ≠ EnergyVal.null

/-- Output record of `extract_certificado_energetico`
(normalizator.py 162-167). -/
structure CertificadoEnergetico where
  consumo_energetico_valor : Option String
  consumo_energetico_icono : Option String
  emisiones_valor : Option String
  emisiones_icono : Option String
  deriving DecidableEq, Repr

/-- One iteration of the loop of `extract_certificado_energetico`
(normalizator.py lines 145-160): for each of the two labels, if the entry
holds a two-element array, each truthy (nonempty) element overwrites the
accumulator. -/
def certStep (acc : CertificadoEnergetico) (item : List (String × EnergyVal)) :
    CertificadoEnergetico :=
  let acc1 :=
    match List.lookup "Consumo:" item with
    | some (EnergyVal.arr a b) =>
      { acc with
        consumo_energetico_valor := if a = "" then acc.consumo_energetico_valor else some a
        consumo_energetico_icono := if b = "" then acc.consumo_energetico_icono else some b }
    | _ => acc
  match List.lookup "Emisiones:" item with
  | some (EnergyVal.arr a b) =>
    { acc1 with
      emisiones_valor := if a = "" then acc1.emisiones_valor else some a
      emisiones_icono := if b = "" then acc1.emisiones_icono else some b }
  | _ => acc1

/-- Embedding of `extract_certificado_energetico` (normalizator.py lines
119-167): filter the entries, then fold the per-entry update over the
four accumulators initialised to `None`. -/
def extract_certificado_energetico (data : List (List (String × EnergyVal))) :
    CertificadoEnergetico :=
  (filter_energy_data data).foldl certStep
    { consumo_energetico_valor := none
      consumo_energetico_icono := none
      emisiones_valor := none
      emisiones_icono := none }

/-- Concatenated lowercased text searched by the basic-characteristics
extractor (normalizator.py line 184). -/
def caracText (l : List String) : String :=
  asciiLower (String.intercalate " " l)

/-- Output record of `extract_caracteristicas_basicas`
(normalizator.py 227-251). -/
structure CaracteristicasBasicas where
  caracteristicas_basicas_superficie_m2 : Option Nat
  superficie_util_m2 : Option Nat
  caracteristicas_basicas_habitaciones : Option Nat
  caracteristicas_basicas_banos : Option Nat
  parcela_m2 : Option Nat
  terraza : Bool
  balcon : Bool
  garaje_incluido : Bool
  segunda_mano_buen_estado : Bool
  armarios_empotrados : Bool
  orientacion : Option String
  cocina_equipada : Bool
  amueblada : Bool
  calefaccion : Option String
  trastero : Bool
  construccion : Option Nat
  plantas : Option Nat
  deriving DecidableEq, Repr

/-- Embedding of `extract_caracteristicas_basicas` (normalizator.py lines
169-251): seventeen independent pattern searches over the joined
lowercased fragment text. -/
def extract_caracteristicas_basicas (l : List String) : CaracteristicasBasicas :=
  let text := caracText l
  let cs := text.data
  { caracteristicas_basicas_superficie_m2 := scanSearch (tryNumLit "m² construidos".data) cs
    superficie_util_m2 := scanSearch (tryNumLit "m² útiles".data) cs
    caracteristicas_basicas_habitaciones := scanSearch (tryNumLit "habitac".data) cs
    caracteristicas_basicas_banos := scanSearch (tryNumLit "baño".data) cs
    parcela_m2 := scanSearch (tryLitNumLit "parcela de ".data "m²".data) cs
    terraza := containsSubstr "terraza" text
    balcon := containsSubstr "balcón" text
    garaje_incluido := containsSubstr "plaza de garaje incluida en el precio" text
    segunda_mano_buen_estado := containsSubstr "segunda mano/buen estado" text
    armarios_empotrados := containsSubstr "armarios empotrados" text
    orientacion := scanSearch tryOrientacion cs
    cocina_equipada := containsSubstr "cocina equipada" text
    amueblada := containsSubstr "casa sin amueblar" text || containsSubstr "amueblado" text
    calefaccion := scanSearch tryCalefaccion cs
    trastero := containsSubstr "trastero" text
    construccion := scanSearch (tryLitYear "construido en ".data) cs
    plantas := scanSearch (tryNumLit "plantas".data) cs }

/-- Matcher for `(\d+)` anchored at the current position: a maximal digit
run. -/
def tryDigits (l : List Char) : Option (List Char) :=
  match l with
  | [] => none
  | c :: cs => if c.isDigit then some (c :: cs.takeWhile Char.isDigit) else none

/-- Matcher for `(\d+\.?\d*)` anchored at the current position: a digit
run, then greedily an optional dot and a further (possibly empty) digit
run. -/
def tryDecimal (l : List Char) : Option (List Char × List Char) :=
  match l with
  | [] => none
  | c :: cs =>
    if c.isDigit then
      let ip := c :: cs.takeWhile Char.isDigit
      match cs.dropWhile Char.isDigit with
      | '.' :: rs => some (ip, rs.takeWhile Char.isDigit)
      | _ => some (ip, [])
    else none

/-- Rational denoted by an integer digit run and a fractional digit run
(the value `float` assigns to the extracted decimal literal; exact for
our ℚ model, see the header note on floating point). -/
def decimalToRat (ip fp : List Char) : ℚ :=
  (digitsToNat ip : ℚ) + (digitsToNat fp : ℚ) / 10 ^ fp.length

/-- Cell-level embedding of the `precio_inmueble` lambda of
`normalizar_precios` (normalizator.py lines 275-278): delete every `'.'`,
search `(\d+)`, and parse the captured run; `none` models the NaN that
`str.extract` leaves when nothing matches. -/
def normPrecioInmueble (s : String) : Option Int :=
  (scanSearch tryDigits (s.data.filter (· ≠ '.'))).map fun ds => (digitsToNat ds : Int)

/-- Cell-level embedding of the `precio_m2` lambda of `normalizar_precios`
(normalizator.py lines 280-283): replace `','` by `'.'`, search
`(\d+\.?\d*)`, and parse the captured decimal; `none` models NaN, which
`astype("float64")` keeps silently. -/
def normPrecioM2 (s : String) : Option ℚ :=
  (scanSearch tryDecimal (s.data.map fun c => if c = ',' then '.' else c)).map
    fun p => decimalToRat p.1 p.2

/-- Row of the concatenated and renamed frame built by
`normalize_dataframe` just before `normalizar_precios` runs
(normalizator.py lines 306-328): the three composite columns are dropped,
their extracted fields appended, and the two raw price headers renamed to
`precio_inmueble` / `precio_m2`. -/
structure PreRow where
  passthrough : List (String × String)
  precio_inmueble : String
  price : ℚ
  precio_m2 : String
  info : InfoFeatures
  cert : CertificadoEnergetico
  carac : CaracteristicasBasicas
  deriving DecidableEq, Repr

/-- Row of the fully normalized frame returned by `normalize_dataframe`. -/
structure NormRow where
  passthrough : List (String × String)
  precio_inmueble : Int
  price : ℚ
  precio_m2 : Option ℚ
  info : InfoFeatures
  cert : CertificadoEnergetico
  carac : CaracteristicasBasicas
  deriving DecidableEq, Repr

/-- Cell-level embedding of the `price` lambda of `normalizar_precios`
(normalizator.py line 279): the numeric thousands value times 1000. -/
def normPrice (q : ℚ) : ℚ :=
  q * 1000

/-- Largest int64 value, 2^63 - 1.  The digit-run capture is nonnegative,
so only this upper bound of the int64 range can be violated. -/
def int64Max : Int :=
  9223372036854775807

/-- Message of the error raised when the int64 cast meets the NaN left by
a failed `str.extract`: the column after `str.extract` has object dtype,
so `astype("int64")` converts element-wise and the NaN element surfaces
Python's `ValueError: cannot convert float NaN to integer` — a generic
message naming neither the offending column nor the raw cell text. -/
def nanCastErrMsg : String :=
  "cannot convert float NaN to integer"

/-- Message of the error raised when an extracted digit string exceeds
the int64 range: the element-wise conversion to a C long raises
`OverflowError: Python int too large to convert to C long` — again
naming neither the column nor the raw text. -/
def overflowErrMsg : String :=
  "Python int too large to convert to C long"

/-- Element-level embedding of `astype("int64")` on the object-dtype
column left by `str.extract` (normalizator.py line 278): a NaN cell
(failed extraction) raises the NaN cast error, a captured integer beyond
the int64 range raises the overflow error, and any other captured
integer is stored as is. -/
def astypeInt64Cell (o : Option Int) : Except String Int :=
  match o with
  | none => Except.error nanCastErrMsg
  | some n => if n ≤ int64Max then Except.ok n else Except.error overflowErrMsg

/-- Embedding of `normalizar_precios` (normalizator.py lines 253-284)
over the assembled rows.  The `precio_inmueble` column is cast to int64,
so the first cell (in row order) whose extraction failed or whose value
overflows int64 aborts the whole batch with its element-level cast
error; the `price` column is multiplied by 1000; the `precio_m2` column
is cast to float64, so a failed extraction stays NaN silently.  pandas
performs the int64 cast column-wise before the float operations, and the
element-wise conversion surfaces the first offending element's
exception, so the row-wise recursion below — in which a head-row cast
error dominates any later failure — is observably identical. -/
def normalizar_precios : List PreRow → Except String (List NormRow)
  | [] => Except.ok []
  | r :: rs =>
    match astypeInt64Cell (normPrecioInmueble r.precio_inmueble), normalizar_precios rs with
    | Except.error m, _ => Except.error m
    | Except.ok _, Except.error m => Except.error m
    | Except.ok n, Except.ok outs =>
      Except.ok
        ({ passthrough := r.passthrough
           precio_inmueble := n
           price := normPrice r.price
           precio_m2 := normPrecioM2 r.precio_m2
           info := r.info
           cert := r.cert
           carac := r.carac } :: outs)

/-- Raw Listing Row: one row of the DataFrame handed to
`NormalizarDataFrame`.  The two raw price headers `Precio del inmueble:`
and `Precio por m²:` are modelled by the fields `precio_del_inmueble` and
`precio_por_m2`; every other pass-through column lives in
`passthrough`. -/
structure RawRow where
  info_features : List String
  certificado_energetico : List (List (String × EnergyVal))
  caracteristicas_basicas : List String
  precio_del_inmueble : String
  price : ℚ
  precio_por_m2 : String
  passthrough : List (String × String)
  deriving DecidableEq, Repr

/-- Embedding of the class `NormalizarDataFrame`: its whole state is the
DataFrame stored by `__init__` (normalizator.py lines 30-39). -/
structure NormalizarDataFrame where
  dataframe : List RawRow
  deriving DecidableEq, Repr

/-- State-explicit embedding of `normalize_dataframe` (normalizator.py
lines 286-332).  The three extractors are applied per row; `pd.concat`
with `axis=1` merges the extracted columns with the frame returned by the
non-inplace `drop` positionally (all four frames carry the index of
`self.dataframe`), which the typed `PreRow` record realises per row; the
inplace `rename` retargets the two raw price headers of the local
concatenated frame, never of `self.dataframe`; `normalizar_precios` runs
last.  The second component is the object state after the call: no
statement of the source assigns `self.dataframe`, so it is returned
unchanged. -/
def normalize_dataframe_st (self : NormalizarDataFrame) :
    Except String (List NormRow) × NormalizarDataFrame :=
  let renamed : List PreRow := self.dataframe.map fun r =>
    { passthrough := r.passthrough
      precio_inmueble := r.precio_del_inmueble
      price := r.price
      precio_m2 := r.precio_por_m2
      info := extract_info_features r.info_features
      cert := extract_certificado_energetico r.certificado_energetico
      carac := extract_caracteristicas_basicas r.caracteristicas_basicas }
  (normalizar_precios renamed, self)

/-- Value of `normalize_dataframe` (the frame it returns). -/
def normalize_dataframe (self : NormalizarDataFrame) : Except String (List NormRow) :=
  (normalize_dataframe_st self).1

/-- Filesystem model for the store: an association of file paths to
parquet file contents (lists of rows); a write shadows any previous
content at the same path. -/
abbrev FS (Row : Type) : Type :=
  List (String × List Row)

/-- Content of the file at `path`, `none` when no such file exists. -/
def fsRead {Row : Type} (fs : FS Row) (path : String) : Option (List Row) :=
  List.lookup path fs

/-- Overwrite (or create) the file at `path` with `contents`. -/
def fsWrite {Row : Type} (fs : FS Row) (path : String) (contents : List Row) : FS Row :=
  (path, contents) :: fs

/-- Extension handling of `save_df_to_parquet` (io.py lines 30-32):
append `".parquet"` unless that string already occurs anywhere in the
name (a substring test, not a suffix test). -/
def fixName (name : String) : String :=
  if containsSubstr ".parquet" name then name else name ++ ".parquet"

/-- Target path of `save_df_to_parquet` (io.py line 35):
`os.path.join(dest_path, name)` after extension handling, for a relative
name and a directory without trailing separator. -/
def savePath (dest_path name : String) : String :=
  dest_path ++ "/" ++ fixName name

/-- Embedding of `save_df_to_parquet` (io.py lines 6-53) over the
filesystem model.  If the target file exists and `rep` is true, its rows
are read back and the batch is appended after them; if it exists and
`rep` is false it is overwritten with the batch alone; if it does not
exist the batch is written to a fresh file (directory creation is not
observable in this model). -/
def save_df_to_parquet {Row : Type} (dataframe_to_save : List Row)
    (dest_path name : String) (rep : Bool) (fs : FS Row) : FS Row :=
  let file_path := savePath dest_path name
  match fsRead fs file_path with
  | some existing_df =>
    if rep then fsWrite fs file_path (existing_df ++ dataframe_to_save)
    else fsWrite fs file_path dataframe_to_save
  | none => fsWrite fs file_path dataframe_to_save

/-- Suffix test used to state what the spec asserts about the final name
(Python's `str.endswith`). -/
def endsWithStr (suffix s : String) : Bool :=
  suffix.data.isSuffixOf s.data

/-- Sample concrete raw row used by witnesses. -/
def sampleRaw : RawRow :=
  { info_features := ["90 m²", "3 hab.", "con garaje", "planta 2", "con ascensor"]
    certificado_energetico := [[("Consumo:", EnergyVal.arr "A" "icon-a")]]
    caracteristicas_basicas := ["90 m² construidos", "terraza", "trastero"]
    precio_del_inmueble := "150.000 €"
    price := 150
    precio_por_m2 := "1.667 €/m²"
    passthrough := [("title", "Piso en venta")] }

/-- Concrete assembled row whose `precio_m2` text matches no decimal
pattern while its `precio_inmueble` parses, exercising the silent-NaN
path of `normalizar_precios`. -/
def nanRow : PreRow :=
  { passthrough := []
    precio_inmueble := "100"
    price := 150
    precio_m2 := "no disponible"
    info := extract_info_features []
    cert := extract_certificado_energetico []
    carac := extract_caracteristicas_basicas [] }

/-- Rows `normalizar_precios` yields for the batch `[nanRow]` (the match
on the result keeps the definition usable in statements without choosing
a representative by hand). -/
def nanOuts : List NormRow :=
  match normalizar_precios [nanRow] with
  | Except.ok outs => outs
  | Except.error _ => []

/-- Discriminator for a conversion result (the batch conversion or a
single cell's cast). -/
def exceptIsOk {ε α : Type} (e : Except ε α) : Bool :=
  match e with
  | Except.ok _ => true
  | Except.error _ => false

/-- Concrete assembled row whose `precio_inmueble` text contains no digit
at all, exercising the failing int64 cast of `normalizar_precios`. -/
def failRow : PreRow :=
  { passthrough := []
    precio_inmueble := "sin precio"
    price := 150
    precio_m2 := "1.250,50 €/m²"
    info := extract_info_features []
    cert := extract_certificado_energetico []
    carac := extract_caracteristicas_basicas [] }

/-- Concrete assembled row whose `precio_inmueble` digit run (after the
thousands dots are stripped) exceeds the int64 range, exercising the
overflow branch of the cast. -/
def overflowRow : PreRow :=
  { passthrough := []
    precio_inmueble := "9.300.000.000.000.000.000.000 €"
    price := 150
    precio_m2 := "1.250,50 €/m²"
    info := extract_info_features []
    cert := extract_certificado_energetico []
    carac := extract_caracteristicas_basicas [] }

/-- Energy-certificate entries of the spec's worked example, the bracket
pairs read as the two-element arrays of the data model. -/
def certExample : List (List (String × EnergyVal)) :=
  [[("Consumo:", EnergyVal.arr "A" "icon-a")], [("Otro:", EnergyVal.arr "X" "Y")]]

/-- Reflexivity of the boolean prefix test. -/
theorem isPrefixOf_self_eq (l : List Char) : l.isPrefixOf l = true := by
  induction l with
  | nil => rfl
  | cons c cs ih => simp [List.isPrefixOf, ih]

/-- A list always contains itself as a suffix-positioned substring. -/
theorem listContains_append_self (pat l : List Char) :
    listContains pat (l ++ pat) = true := by
  induction l with
  | nil =>
    cases pat with
    | nil => rfl
    | cons c cs => simp [listContains, isPrefixOf_self_eq]
  | cons c cs ih => simp [listContains, ih]

/-- Reading a path straight after writing it yields the written rows. -/
@[simp] theorem fsRead_fsWrite_self {Row : Type} (fs : FS Row) (p : String)
    (v : List Row) : fsRead (fsWrite fs p v) p = some v := by
  simp [fsRead, fsWrite, List.lookup]

/-- C3: energy-certificate extraction applied to the entry sequence
`[{"Consumo:": ["A", "icon-a"]}, {"Otro:": ["X","Y"]}]` returns exactly
value "A" and icon "icon-a" for consumption and absent emission fields. -/
theorem certificado_energetico_example :
    extract_certificado_energetico certExample =
      { consumo_energetico_valor := some "A"
        consumo_energetico_icono := some "icon-a"
        emisiones_valor := none
        emisiones_icono := none } := rfl

/-- C10: on the empty fragment sequence the info-feature extractor
returns absent surface, rooms, floor and elevator and `garaje = false`;
moreover `garaje` is a concrete boolean on every input. -/
theorem info_features_empty_defaults :
    extract_info_features [] =
      { superficie_m2 := none
        habitaciones := none
        garaje := false
        planta := none
        ascensor := none } ∧
    ∀ info : List String,
      (extract_info_features info).garaje = true ∨
      (extract_info_features info).garaje = false := by
  refine ⟨rfl, fun info => ?_⟩
  cases h : (extract_info_features info).garaje
  · exact Or.inr rfl
  · exact Or.inl rfl

/-- C6: the elevator field is always exactly one of true, false or
absent: true when the lowercased concatenated text contains
"con ascensor" (tested first), false when it does not but contains
"sin ascensor", absent when it contains neither. -/
theorem ascensor_tristate (info : List String) :
    ((extract_info_features info).ascensor = some true ∨
      (extract_info_features info).ascensor = some false ∨
      (extract_info_features info).ascensor = none) ∧
    (containsSubstr "con ascensor" (infoText info) = true →
      (extract_info_features info).ascensor = some true) ∧
    (containsSubstr "con ascensor" (infoText info) = false →
      containsSubstr "sin ascensor" (infoText info) = true →
      (extract_info_features info).ascensor = some false) ∧
    (containsSubstr "con ascensor" (infoText info) = false →
      containsSubstr "sin ascensor" (infoText info) = false →
      (extract_info_features info).ascensor = none) := by
  refine ⟨?_, ?_, ?_, ?_⟩
  · cases h : (extract_info_features info).ascensor with
    | none => exact Or.inr (Or.inr rfl)
    | some b =>
      cases b
      · exact Or.inr (Or.inl rfl)
      · exact Or.inl rfl
  · intro h1
    simp [extract_info_features, h1]
  · intro h1 h2
    simp [extract_info_features, h1, h2]
  · intro h1 h2
    simp [extract_info_features, h1, h2]

/-- Witness for C6 at a concrete input containing "con ascensor". -/
theorem ascensor_tristate_witness :
    containsSubstr "con ascensor" (infoText ["piso con ascensor"]) = true ∧
    (extract_info_features ["piso con ascensor"]).ascensor = some true :=
  ⟨rfl, (ascensor_tristate ["piso con ascensor"]).2.1 rfl⟩

/-- C7: each of the eight boolean amenity flags of the
basic-characteristics extractor equals the presence test of its
triggering phrase in the lowercased concatenated text (the furnished flag
has two alternative triggering phrases combined by or); being boolean
equalities, the flags are never absent. -/
theorem caracteristicas_flags_presence (l : List String) :
    (extract_caracteristicas_basicas l).terraza
        = containsSubstr "terraza" (caracText l) ∧
    (extract_caracteristicas_basicas l).balcon
        = containsSubstr "balcón" (caracText l) ∧
    (extract_caracteristicas_basicas l).garaje_incluido
        = containsSubstr "plaza de garaje incluida en el precio" (caracText l) ∧
    (extract_caracteristicas_basicas l).segunda_mano_buen_estado
        = containsSubstr "segunda mano/buen estado" (caracText l) ∧
    (extract_caracteristicas_basicas l).armarios_empotrados
        = containsSubstr "armarios empotrados" (caracText l) ∧
    (extract_caracteristicas_basicas l).cocina_equipada
        = containsSubstr "cocina equipada" (caracText l) ∧
    (extract_caracteristicas_basicas l).amueblada
        = (containsSubstr "casa sin amueblar" (caracText l)
            || containsSubstr "amueblado" (caracText l)) ∧
    (extract_caracteristicas_basicas l).trastero
        = containsSubstr "trastero" (caracText l) :=
  ⟨rfl, rfl, rfl, rfl, rfl, rfl, rfl, rfl⟩

/-- C9: the record assembler never mutates the stored input DataFrame:
the object state after `normalize_dataframe` is the original one, so the
stored frame still carries the three raw composite columns and the two
raw price headers with their original values. -/
theorem normalize_dataframe_frame (n : NormalizarDataFrame) :
    (normalize_dataframe_st n).2 = n ∧
    (normalize_dataframe_st n).2.dataframe.map RawRow.info_features
        = n.dataframe.map RawRow.info_features ∧
    (normalize_dataframe_st n).2.dataframe.map RawRow.certificado_energetico
        = n.dataframe.map RawRow.certificado_energetico ∧
    (normalize_dataframe_st n).2.dataframe.map RawRow.caracteristicas_basicas
        = n.dataframe.map RawRow.caracteristicas_basicas ∧
    (normalize_dataframe_st n).2.dataframe.map RawRow.precio_del_inmueble
        = n.dataframe.map RawRow.precio_del_inmueble ∧
    (normalize_dataframe_st n).2.dataframe.map RawRow.precio_por_m2
        = n.dataframe.map RawRow.precio_por_m2 :=
  ⟨rfl, rfl, rfl, rfl, rfl, rfl⟩

/-- C5: the record assembler is a pure deterministic function of the
stored batch: running it a second time (on the object state left by the
first run) returns the identical result, and two objects holding equal
batches normalize equally. -/
theorem normalize_dataframe_deterministic (n m : NormalizarDataFrame)
    (h : n.dataframe = m.dataframe) :
    (normalize_dataframe_st n).1
        = (normalize_dataframe_st ((normalize_dataframe_st n).2)).1 ∧
    normalize_dataframe n = normalize_dataframe m := by
  constructor
  · rfl
  · exact congrArg (fun d => normalize_dataframe { dataframe := d }) h

/-- Witness for C5 at a concrete one-row batch. -/
theorem normalize_dataframe_deterministic_witness :
    normalize_dataframe { dataframe := [sampleRaw] }
      = normalize_dataframe { dataframe := [sampleRaw] } :=
  (normalize_dataframe_deterministic { dataframe := [sampleRaw] }
    { dataframe := [sampleRaw] } rfl).2

/-- C2 counterexample: on the spec's own example string the normalized
`precio_m2` is 1.25, not 1250.50 — after the comma becomes a dot the
leftover thousands dot stops the captured decimal at `1.250`. -/
theorem precio_m2_example_counterexample :
    normPrecioM2 "1.250,50 €/m²" = some (1.25 : ℚ) ∧
    normPrecioM2 "1.250,50 €/m²" ≠ some (1250.50 : ℚ) := by
  have h : normPrecioM2 "1.250,50 €/m²" = some (decimalToRat ['1'] ['2', '5', '0']) := rfl
  have h1 : digitsToNat ['1'] = 1 := rfl
  have h2 : digitsToNat ['2', '5', '0'] = 250 := rfl
  constructor
  · rw [h]
    norm_num [decimalToRat, h1, h2]
  · rw [h]
    norm_num [decimalToRat, h1, h2]

/-- C2 as amended: `precio_inmueble="150.000 €"` normalizes to the
integer 150000 and `price=150.0` to 150000.0 as claimed, but
`precio_m2="1.250,50 €/m²"` normalizes to the float 1.25 (the captured
decimal is cut at the stray thousands dot). -/
theorem precio_example_values :
    normPrecioInmueble "150.000 €" = some 150000 ∧
    normPrice 150 = 150000 ∧
    normPrecioM2 "1.250,50 €/m²" = some (1.25 : ℚ) := by
  have h : normPrecioM2 "1.250,50 €/m²" = some (decimalToRat ['1'] ['2', '5', '0']) := rfl
  have h1 : digitsToNat ['1'] = 1 := rfl
  have h2 : digitsToNat ['2', '5', '0'] = 250 := rfl
  refine ⟨rfl, by norm_num [normPrice], ?_⟩
  rw [h]
  norm_num [decimalToRat, h1, h2]

/-- C1 counterexample: a row whose `precio_m2` text matches nothing is
normalized without any error, the field silently becoming the absent
marker NaN — no exception naming the field and raw text is raised. -/
theorem normalizar_precios_no_extraction_error :
    normPrecioM2 "no disponible" = none ∧
    normalizar_precios [nanRow] = Except.ok nanOuts ∧
    nanOuts.map NormRow.precio_m2 = [none] :=
  ⟨rfl, rfl, rfl⟩

/-- Whichever branch of the element-level int64 cast fails, the error is
one of the two generic cast messages. -/
theorem astypeInt64Cell_error (o : Option Int) (m : String)
    (h : astypeInt64Cell o = Except.error m) :
    m = nanCastErrMsg ∨ m = overflowErrMsg := by
  cases o with
  | none =>
    simp [astypeInt64Cell] at h
    exact Or.inl h.symm
  | some n =>
    by_cases hn : n ≤ int64Max
    · simp [astypeInt64Cell, hn] at h
    · simp [astypeInt64Cell, hn] at h
      exact Or.inr h.symm

/-- C1 as amended: the batch conversion fails exactly when some row's
`precio_inmueble` cell fails the element-wise int64 cast — no digit left
after dot-stripping (a NaN cell) or a captured value beyond the int64
range — and the surfaced error is a failing cell's own generic cast
message (the NaN ValueError or the C-long OverflowError), naming neither
the field nor the raw text; a `precio_m2` cell that fails to match never
causes a failure — in every successful batch the `precio_m2` column is
the cell-wise extraction result, absent wherever the pattern failed.  No
ValueExtractionError exists in the program. -/
theorem normalizar_precios_error_policy (rows : List PreRow) :
    (exceptIsOk (normalizar_precios rows)
      = rows.all fun r => exceptIsOk (astypeInt64Cell (normPrecioInmueble r.precio_inmueble))) ∧
    (∀ m, normalizar_precios rows = Except.error m →
      ∃ r, r ∈ rows ∧
        astypeInt64Cell (normPrecioInmueble r.precio_inmueble) = Except.error m) ∧
    (∀ m, normalizar_precios rows = Except.error m →
      m = nanCastErrMsg ∨ m = overflowErrMsg) ∧
    (∀ outs, normalizar_precios rows = Except.ok outs →
      outs.map NormRow.precio_m2 = rows.map fun r => normPrecioM2 r.precio_m2) := by
  have main : (exceptIsOk (normalizar_precios rows)
      = rows.all fun r => exceptIsOk (astypeInt64Cell (normPrecioInmueble r.precio_inmueble))) ∧
      (∀ m, normalizar_precios rows = Except.error m →
        ∃ r, r ∈ rows ∧
          astypeInt64Cell (normPrecioInmueble r.precio_inmueble) = Except.error m) ∧
      (∀ outs, normalizar_precios rows = Except.ok outs →
        outs.map NormRow.precio_m2 = rows.map fun r => normPrecioM2 r.precio_m2) := by
    induction rows with
    | nil =>
      refine ⟨rfl, ?_, ?_⟩
      · intro m hm
        simp [normalizar_precios] at hm
      · intro outs houts
        simp [normalizar_precios] at houts
        simp [houts]
    | cons r rs ih =>
      obtain ⟨ih1, ih2, ih3⟩ := ih
      cases hp : astypeInt64Cell (normPrecioInmueble r.precio_inmueble) with
      | error m0 =>
        refine ⟨?_, ?_, ?_⟩
        · simp [normalizar_precios, hp, exceptIsOk]
        · intro m hm
          simp [normalizar_precios, hp] at hm
          exact ⟨r, by simp, by rw [hp, hm]⟩
        · intro outs houts
          simp [normalizar_precios, hp] at houts
      | ok n =>
        cases hr : normalizar_precios rs with
        | error m0 =>
          have hall : (rs.all fun x =>
              exceptIsOk (astypeInt64Cell (normPrecioInmueble x.precio_inmueble))) = false := by
            have h0 := ih1
            rw [hr] at h0
            exact h0.symm
          refine ⟨?_, ?_, ?_⟩
          · simp only [List.all_cons, hp, hall, Bool.and_false]
            simp [normalizar_precios, hp, hr, exceptIsOk]
          · intro m hm
            simp [normalizar_precios, hp, hr] at hm
            obtain ⟨x, hx, hcell⟩ := ih2 m0 hr
            exact ⟨x, List.mem_cons_of_mem r hx, by rw [hcell, hm]⟩
          · intro outs houts
            simp [normalizar_precios, hp, hr] at houts
        | ok outs0 =>
          have hall : (rs.all fun x =>
              exceptIsOk (astypeInt64Cell (normPrecioInmueble x.precio_inmueble))) = true := by
            have h0 := ih1
            rw [hr] at h0
            exact h0.symm
          refine ⟨?_, ?_, ?_⟩
          · simp only [List.all_cons, hp, hall, Bool.and_true]
            simp [normalizar_precios, hp, hr, exceptIsOk]
          · intro m hm
            simp [normalizar_precios, hp, hr] at hm
          · intro outs houts
            simp [normalizar_precios, hp, hr] at houts
            rw [← houts]
            simp [ih3 outs0 hr]
  refine ⟨main.1, main.2.1, ?_, main.2.2⟩
  intro m hm
  obtain ⟨x, hx, hcell⟩ := main.2.1 m hm
  exact astypeInt64Cell_error _ m hcell

/-- Witness for C1's amended theorem at concrete one-row batches: a
non-matching `precio_m2` leaves the batch successful with the absent
value in its column, while a digitless and an int64-overflowing
`precio_inmueble` fail with the two generic cast messages. -/
theorem normalizar_precios_error_policy_witness :
    normalizar_precios [nanRow] = Except.ok nanOuts ∧
    nanOuts.map NormRow.precio_m2 = [normPrecioM2 nanRow.precio_m2] ∧
    normPrecioM2 nanRow.precio_m2 = none ∧
    normalizar_precios [failRow] = Except.error nanCastErrMsg ∧
    normalizar_precios [overflowRow] = Except.error overflowErrMsg := by
  refine ⟨rfl, ?_, rfl, rfl, rfl⟩
  have h := (normalizar_precios_error_policy [nanRow]).2.2.2 nanOuts rfl
  simpa using h

/-- Saving to a path with no pre-existing file writes the batch as is,
whatever the replace flag. -/
theorem save_to_fresh_path {Row : Type} (df : List Row) (dest name : String)
    (b : Bool) (fs : FS Row) (h : fsRead fs (savePath dest name) = none) :
    save_df_to_parquet df dest name b fs = fsWrite fs (savePath dest name) df := by
  simp [save_df_to_parquet, h]

/-- Saving with replace true onto an existing file appends the batch
after the rows read back from it. -/
theorem save_to_existing_append {Row : Type} (df : List Row) (dest name : String)
    (fs : FS Row) (ex : List Row) (h : fsRead fs (savePath dest name) = some ex) :
    save_df_to_parquet df dest name true fs
      = fsWrite fs (savePath dest name) (ex ++ df) := by
  simp [save_df_to_parquet, h]

/-- Saving with replace false onto an existing file overwrites it with
the batch alone. -/
theorem save_to_existing_overwrite {Row : Type} (df : List Row) (dest name : String)
    (fs : FS Row) (ex : List Row) (h : fsRead fs (savePath dest name) = some ex) :
    save_df_to_parquet df dest name false fs
      = fsWrite fs (savePath dest name) df := by
  simp [save_df_to_parquet, h]

/-- C4: saving batch A to a fresh destination, then batch B under the
same name with replace true, leaves a file holding the rows of A followed
by the rows of B (length `A.length + B.length`); a subsequent save of
batch C with replace false leaves the file holding exactly C. -/
theorem store_append_then_overwrite (Row : Type) (fs : FS Row)
    (dest name : String) (A B C : List Row) (b0 : Bool)
    (h : fsRead fs (savePath dest name) = none) :
    fsRead (save_df_to_parquet B dest name true
        (save_df_to_parquet A dest name b0 fs)) (savePath dest name)
      = some (A ++ B) ∧
    (A ++ B).length = A.length + B.length ∧
    fsRead (save_df_to_parquet C dest name false
        (save_df_to_parquet B dest name true
          (save_df_to_parquet A dest name b0 fs))) (savePath dest name)
      = some C := by
  have e1 : save_df_to_parquet A dest name b0 fs
      = fsWrite fs (savePath dest name) A := save_to_fresh_path A dest name b0 fs h
  have e2 : fsRead (save_df_to_parquet A dest name b0 fs) (savePath dest name)
      = some A := by
    rw [e1, fsRead_fsWrite_self]
  have e3 : save_df_to_parquet B dest name true (save_df_to_parquet A dest name b0 fs)
      = fsWrite (save_df_to_parquet A dest name b0 fs) (savePath dest name) (A ++ B) :=
    save_to_existing_append B dest name _ A e2
  have e4 : fsRead (save_df_to_parquet B dest name true
      (save_df_to_parquet A dest name b0 fs)) (savePath dest name) = some (A ++ B) := by
    rw [e3, fsRead_fsWrite_self]
  have e5 : save_df_to_parquet C dest name false
        (save_df_to_parquet B dest name true (save_df_to_parquet A dest name b0 fs))
      = fsWrite (save_df_to_parquet B dest name true
          (save_df_to_parquet A dest name b0 fs)) (savePath dest name) C :=
    save_to_existing_overwrite C dest name _ (A ++ B) e4
  refine ⟨e4, by simp, ?_⟩
  rw [e5, fsRead_fsWrite_self]

/-- Witness for C4 on a concrete empty filesystem and Nat rows. -/
theorem store_append_then_overwrite_witness :
    fsRead (save_df_to_parquet [2, 3] "data" "flats" true
        (save_df_to_parquet [1] "data" "flats" false ([] : FS Nat)))
      (savePath "data" "flats") = some ([1] ++ [2, 3]) ∧
    ([1] ++ [2, 3]).length = [1].length + [2, 3].length ∧
    fsRead (save_df_to_parquet [4] "data" "flats" false
        (save_df_to_parquet [2, 3] "data" "flats" true
          (save_df_to_parquet [1] "data" "flats" false ([] : FS Nat))))
      (savePath "data" "flats") = some [4] :=
  store_append_then_overwrite Nat [] "data" "flats" [1] [2, 3] [4] false rfl

/-- C8 counterexample: a name that contains ".parquet" in the middle is
used unchanged, so the target path does not end in ".parquet". -/
theorem fixName_not_suffix_counterexample :
    fixName "listings.parquet.bak" = "listings.parquet.bak" ∧
    endsWithStr ".parquet" "listings.parquet.bak" = false ∧
    savePath "out" "listings.parquet.bak" = "out/listings.parquet.bak" ∧
    endsWithStr ".parquet" (savePath "out" "listings.parquet.bak") = false :=
  ⟨rfl, rfl, rfl, rfl⟩

/-- C8 as amended: the store appends ".parquet" exactly when that string
occurs nowhere in the name (a substring test, not a suffix test); a name
already containing it anywhere is used unchanged, so the final name
always contains ".parquet" but need not end with it. -/
theorem fixName_containment (name : String) :
    (containsSubstr ".parquet" name = true → fixName name = name) ∧
    (containsSubstr ".parquet" name = false →
      fixName name = name ++ ".parquet") ∧
    containsSubstr ".parquet" (fixName name) = true := by
  refine ⟨fun h1 => ?_, fun h1 => ?_, ?_⟩
  · simp [fixName, h1]
  · simp [fixName, h1]
  · cases hb : containsSubstr ".parquet" name with
    | false =>
      have hfix : fixName name = name ++ ".parquet" := by simp [fixName, hb]
      rw [hfix]
      show listContains ".parquet".data (name ++ ".parquet").data = true
      rw [String.data_append]
      exact listContains_append_self ".parquet".data name.data
    | true => simp [fixName, hb]

/-- Witness for C8's amended theorem at a concrete extension-free name. -/
theorem fixName_containment_witness :
    containsSubstr ".parquet" "flats" = false ∧
    fixName "flats" = "flats" ++ ".parquet" :=
  ⟨rfl, (fixName_containment "flats").2.1 rfl⟩
